import Mathlib

/-
Verification development for the bytebot sequential-thinking swarm
(swarm_orchestrator.py and agent_launcher.py), as a shallow embedding.

Modelling conventions:
* Python dicts and json files in a workspace directory are modelled as
  association lists keyed by String, with dict semantics (`dlookup` is the
  first match, `dset` replaces in place or appends, `derase` removes the key).
* Wall-clock reads are explicit parameters: `int(time.time())` is a natural
  number `t`, `datetime.utcnow().isoformat()` is the string `isoNow t`.
* The `uuid.uuid4().hex[:8]` draws are an explicit supply `sup : Nat -> String`
  indexed by a draw counter kept in the orchestrator state.
* Fallible Python code (raise ValueError / KeyError) returns `Except String`.
-/

namespace Swarm

/-- Dictionary lookup on an association list: first entry with the key. -/
def dlookup {α : Type} : List (String × α) → String → Option α
  | [], _ => none
  | (k, v) :: rest, key => if k = key then some v else dlookup rest key

/-- Dictionary write: replace the value in place if the key is present,
append otherwise (Python `d[k] = v` / writing a file of that name). -/
def dset {α : Type} : List (String × α) → String → α → List (String × α)
  | [], key, v => [(key, v)]
  | (k, w) :: rest, key, v =>
    if k = key then (key, v) :: rest else (k, w) :: dset rest key v

/-- Dictionary erase: remove the entries with the key
(Python `del d[k]` / `Path.unlink`). -/
def derase {α : Type} : List (String × α) → String → List (String × α)
  | [], _ => []
  | (k, v) :: rest, key =>
    if k = key then derase rest key else (k, v) :: derase rest key

theorem dlookup_dset_self {α : Type} (l : List (String × α)) (k : String) (v : α) :
    dlookup (dset l k v) k = some v := by
  induction l with
  | nil => simp [dset, dlookup]
  | cons hd tl ih =>
    obtain ⟨k0, v0⟩ := hd
    by_cases h : k0 = k
    · simp [dset, h, dlookup]
    · simp [dset, h, dlookup, ih]

theorem dlookup_dset_ne {α : Type} (l : List (String × α)) (k k' : String) (v : α)
    (h : k' ≠ k) : dlookup (dset l k v) k' = dlookup l k' := by
  have h' : ¬ k = k' := fun hh => h hh.symm
  induction l with
  | nil => simp [dset, dlookup, h']
  | cons hd tl ih =>
    obtain ⟨k0, v0⟩ := hd
    by_cases h0 : k0 = k
    · subst h0
      simp [dset, dlookup, h']
    · simp [dset, h0, dlookup, ih]

theorem dset_length_of_mem {α : Type} (l : List (String × α)) (k : String) (v : α)
    (h : (dlookup l k).isSome) : (dset l k v).length = l.length := by
  induction l with
  | nil => simp [dlookup] at h
  | cons hd tl ih =>
    obtain ⟨k0, v0⟩ := hd
    by_cases h0 : k0 = k
    · simp [dset, h0]
    · simp [dlookup, h0] at h
      simp [dset, h0, ih h]

theorem dset_length_of_fresh {α : Type} (l : List (String × α)) (k : String) (v : α)
    (h : dlookup l k = none) : (dset l k v).length = l.length + 1 := by
  induction l with
  | nil => simp [dset]
  | cons hd tl ih =>
    obtain ⟨k0, v0⟩ := hd
    by_cases h0 : k0 = k
    · simp [dlookup, h0] at h
    · simp [dlookup, h0] at h
      simp [dset, h0, ih h]

theorem dlookup_derase_self {α : Type} (l : List (String × α)) (k : String) :
    dlookup (derase l k) k = none := by
  induction l with
  | nil => simp [derase, dlookup]
  | cons hd tl ih =>
    obtain ⟨k0, v0⟩ := hd
    by_cases h0 : k0 = k
    · simp [derase, h0, ih]
    · simp [derase, h0, dlookup, ih]

theorem dlookup_derase_ne {α : Type} (l : List (String × α)) (k k' : String)
    (h : k' ≠ k) : dlookup (derase l k) k' = dlookup l k' := by
  have h' : ¬ k = k' := fun hh => h hh.symm
  induction l with
  | nil => simp [derase]
  | cons hd tl ih =>
    obtain ⟨k0, v0⟩ := hd
    by_cases h0 : k0 = k
    · subst h0
      simp [derase, dlookup, h', ih]
    · simp [derase, h0, dlookup, ih]

theorem dlookup_mem {α : Type} {l : List (String × α)} {k : String} {v : α}
    (h : dlookup l k = some v) : (k, v) ∈ l := by
  induction l with
  | nil => simp [dlookup] at h
  | cons hd tl ih =>
    obtain ⟨k0, v0⟩ := hd
    by_cases h0 : k0 = k
    · subst h0
      simp [dlookup] at h
      simp [h]
    · simp [dlookup, h0] at h
      exact List.mem_cons_of_mem _ (ih h)

/-- Models `datetime.utcnow().isoformat()` at abstract model time `t`;
distinct times give distinct strings. -/
def isoNow (t : Nat) : String := toString t

/-- `AgentMessage` payload dicts actually constructed by the orchestrator,
as a tagged variant (`agent_initialized` and `task_created` shapes). -/
inductive MsgPayload where
  | agentInit (specialty : String) (capabilities : String)
  | taskCreated (task_id : String) (description : String)
      (sequential_steps : List String) (require_ultrathink : Bool)
deriving DecidableEq

/-- `AgentMessage` dataclass (swarm_orchestrator.py lines 29-39). -/
structure AgentMessage where
  agent_id : String
  message_type : String
  target : String
  timestamp : String
  payload : MsgPayload
  correlation_id : Option String := none
  requires_validation : Bool := true
  thinking_stage : Option String := none
deriving DecidableEq

/-- The structured three-part record returned by `sequential_think`:
`phase_1_system_mapping` part (lines 132-137). -/
structure SystemMapping where
  question : String
  evidence_gathering : List String
  root_cause_analysis : List String
  component_mapping : List String
deriving DecidableEq

/-- `phase_2_evidence_verification` part (lines 138-143). -/
structure EvidenceVerification where
  assumptions : List String
  verification_steps : List String
  facts_discovered : List String
  mental_model : String
deriving DecidableEq

/-- `phase_3_minimal_intervention` part (lines 144-149). -/
structure MinimalIntervention where
  simplest_solution : String
  intervention_plan : List String
  verification_method : String
  outcome_achievement : String
deriving DecidableEq

/-- The Phase-1 result dict built by `SequentialThinkAgent.sequential_think`. -/
structure ThinkingProcess where
  phase_1_system_mapping : SystemMapping
  phase_2_evidence_verification : EvidenceVerification
  phase_3_minimal_intervention : MinimalIntervention
deriving DecidableEq

/-- Return value of `_apply_first_principles` (lines 186-193). -/
structure FirstPrinciples where
  fundamental_truths : List String
  undisputed_facts : List String
  core_components : List String
  causal_relationships : List String
deriving DecidableEq

/-- One entry of `_gather_perspectives` (lines 195-203). -/
structure Perspective where
  viewpoint : String
  analysis : String
deriving DecidableEq

/-- One entry of `_challenge_assumptions` (lines 205-210). -/
structure AssumptionChallenge where
  assumption : String
  challenge : String
  impact : String
deriving DecidableEq

/-- Return value of `_explore_solution_space` (lines 212-219). -/
structure SolutionSpace where
  conventional_solutions : List String
  unconventional_approaches : List String
  hybrid_solutions : List String
  risk_assessment : List (String × String)
deriving DecidableEq

/-- Return value of `_integrate_other_insights` (lines 221-228). -/
structure IntegrationInsights where
  synthesized_insights : List String
  conflicts_identified : List String
  emergent_patterns : List String
  collaborative_conclusions : List String
deriving DecidableEq

/-- The Phase-2 result dict built by `ultrathink_collaborative` (lines 175-181). -/
structure CollaborativeInsights where
  first_principles_analysis : FirstPrinciples
  multiple_perspectives : List Perspective
  assumption_challenging : List AssumptionChallenge
  solution_space_exploration : SolutionSpace
  integration_insights : IntegrationInsights
deriving DecidableEq

/-- `final_synthesis` in the task result bundle is either the integration
record produced by the synthesizer, or the error-marker dict
`{"error": "Synthesizer agent not available"}` (lines 360-364). -/
inductive FinalSynthesis where
  | synthesis (i : IntegrationInsights)
  | errorMarker (msg : String)
deriving DecidableEq

/-- Return value of `_achieve_consensus` (lines 378-386); the confidence is
the constant 0.85, modelled as the exact rational. -/
structure Consensus where
  consensus_level : String
  agreed_points : List String
  disagreements : List String
  resolution_method : String
  final_confidence : ℚ
deriving DecidableEq

/-- The result bundle attached to a task by
`execute_sequential_swarm_thinking` (lines 368-373). -/
structure TaskResult where
  individual_sequential_thinking : List (String × ThinkingProcess)
  collaborative_ultrathink : List (String × CollaborativeInsights)
  final_synthesis : FinalSynthesis
  swarm_consensus : Consensus
deriving DecidableEq

/-- `Task` dataclass (swarm_orchestrator.py lines 41-58), after
`__post_init__` has filled `created_at` and `sequential_steps`. -/
structure Task where
  task_id : String
  description : String
  assigned_to : Option String := none
  status : String := "pending"
  created_at : String
  completed_at : Option String := none
  result : Option TaskResult := none
  validation_required : Bool := true
  sequential_steps : List String := []
deriving DecidableEq

/-- One thinking-log entry written by `log_thinking` (lines 157-170);
`content` is the stage-specific dict as a tagged variant. -/
inductive StageContent where
  | seq (tp : ThinkingProcess)
  | ultra (ci : CollaborativeInsights)
deriving DecidableEq

structure LogEntry where
  agent_id : String
  timestamp : String
  stage : String
  content : StageContent
deriving DecidableEq

/-- `SwarmWorkspace` (lines 60-117): the file-backed store, with one
association list per directory that the embedded operations touch. Task
files are keyed by task id, message files by the derived name
`agent_id ++ "_" ++ toString t`, thinking-session files by
`agent_id ++ "_" ++ stage`. -/
structure SwarmWorkspace where
  base_dir : String := "/tmp/swarm_workspace"
  tasksPending : List (String × Task) := []
  tasksActive : List (String × Task) := []
  tasksCompleted : List (String × Task) := []
  messages : List (String × AgentMessage) := []
  thinking_sessions : List (String × LogEntry) := []
deriving DecidableEq

def emptyWorkspace : SwarmWorkspace := {}

/-- `SwarmWorkspace.write_message` (lines 77-81): persists a message under
the name derived from its agent id and the current whole-second time `t`;
`open(..., "w")` truncates, so an existing file of the same name is
silently replaced. -/
def write_message (ws : SwarmWorkspace) (m : AgentMessage) (t : Nat) : SwarmWorkspace :=
  { ws with messages := dset ws.messages (m.agent_id ++ "_" ++ toString t) m }

/-- `SwarmWorkspace.write_task` (lines 83-95): persists a task under its
status subdivision keyed by task id, raising ValueError on any other status. -/
def write_task (ws : SwarmWorkspace) (t : Task) : Except String SwarmWorkspace :=
  if t.status = "pending" then
    .ok { ws with tasksPending := dset ws.tasksPending t.task_id t }
  else if t.status = "active" then
    .ok { ws with tasksActive := dset ws.tasksActive t.task_id t }
  else if t.status = "completed" then
    .ok { ws with tasksCompleted := dset ws.tasksCompleted t.task_id t }
  else
    .error ("Unknown task status: " ++ t.status)

/-- Lookup of the task file `tasks/<status>/<tid>.json`; statuses other than
the three subdivisions have no directory, so the file never exists. -/
def statusLookup (ws : SwarmWorkspace) (status tid : String) : Option Task :=
  if status = "pending" then dlookup ws.tasksPending tid
  else if status = "active" then dlookup ws.tasksActive tid
  else if status = "completed" then dlookup ws.tasksCompleted tid
  else none

/-- The `current_file.unlink()` step of `move_task` (lines 109-111): remove
the task file from the subdivision named by the current status, a no-op
when that file does not exist. -/
def removeTaskFile (ws : SwarmWorkspace) (status tid : String) : SwarmWorkspace :=
  if status = "pending" then { ws with tasksPending := derase ws.tasksPending tid }
  else if status = "active" then { ws with tasksActive := derase ws.tasksActive tid }
  else if status = "completed" then { ws with tasksCompleted := derase ws.tasksCompleted tid }
  else ws

/-- `SwarmWorkspace.move_task` (lines 106-117): unlink the record at the
current status, update the status (and the completion timestamp when moving
to completed), then `write_task`. When `write_task` raises, the unlink has
already happened, so the store is returned in its partially mutated state
together with the error. -/
def move_task (ws : SwarmWorkspace) (task : Task) (new_status : String) (now : String) :
    SwarmWorkspace × Except String Task :=
  let ws1 := removeTaskFile ws task.status task.task_id
  let task1 := { task with
    status := new_status,
    completed_at := if new_status = "completed" then some now else task.completed_at }
  match write_task ws1 task1 with
  | .ok ws2 => (ws2, .ok task1)
  | .error e => (ws1, .error e)

/-- `SequentialThinkAgent` / `SpecialistAgent` (lines 119-235): in the
source, `SpecialistAgent.__init__` forwards the specialty as the base
class agent_type, so both fields carry the same value. -/
structure SpecialistAgent where
  agent_id : String
  agent_type : String
  specialty : String
  thinking_log : List LogEntry := []
deriving DecidableEq

/-- `SequentialThinkAgent.log_thinking` (lines 157-170): append the entry to
the in-memory log and write it to `thinking_sessions/<agent_id>_<stage>.json`
(same agent and stage overwrite, not append). -/
def log_thinking (a : SpecialistAgent) (ws : SwarmWorkspace) (now stage : String)
    (content : StageContent) : SpecialistAgent × SwarmWorkspace :=
  let entry : LogEntry :=
    { agent_id := a.agent_id, timestamp := now, stage := stage,
      content := content }
  ({ a with thinking_log := a.thinking_log ++ [entry] },
    { ws with
        thinking_sessions := dset ws.thinking_sessions (a.agent_id ++ "_" ++ stage) entry })

/-- The three-part record built by `sequential_think` (lines 131-150); only
the question string depends on the problem, every other field is empty. -/
def mkThinkingProcess (problem : String) : ThinkingProcess :=
  { phase_1_system_mapping :=
      { question := "What is the precise outcome needed for: " ++ problem ++ "?",
        evidence_gathering := [], root_cause_analysis := [], component_mapping := [] },
    phase_2_evidence_verification :=
      { assumptions := [], verification_steps := [], facts_discovered := [],
        mental_model := "" },
    phase_3_minimal_intervention :=
      { simplest_solution := "", intervention_plan := [], verification_method := "",
        outcome_achievement := "" } }

/-- `SequentialThinkAgent.sequential_think` (lines 128-155). -/
def sequential_think (a : SpecialistAgent) (ws : SwarmWorkspace) (now problem : String) :
    ThinkingProcess × SpecialistAgent × SwarmWorkspace :=
  let tp := mkThinkingProcess problem
  let (a1, ws1) := log_thinking a ws now "sequential_analysis" (.seq tp)
  (tp, a1, ws1)

/-- `_apply_first_principles` (lines 186-193). -/
def apply_first_principles (_problem : String) : FirstPrinciples :=
  { fundamental_truths := [], undisputed_facts := [], core_components := [],
    causal_relationships := [] }

/-- `_gather_perspectives` (lines 195-203). -/
def gather_perspectives (_problem : String) : List Perspective :=
  [{ viewpoint := "systems", analysis := "" }, { viewpoint := "user", analysis := "" },
    { viewpoint := "technical", analysis := "" }, { viewpoint := "business", analysis := "" }]

/-- `_challenge_assumptions` (lines 205-210). -/
def challenge_assumptions (_problem : String) : List AssumptionChallenge :=
  [{ assumption := "", challenge := "", impact := "" },
    { assumption := "", challenge := "", impact := "" }]

/-- `_explore_solution_space` (lines 212-219). -/
def explore_solution_space (_problem : String) : SolutionSpace :=
  { conventional_solutions := [], unconventional_approaches := [], hybrid_solutions := [],
    risk_assessment := [] }

/-- `_integrate_other_insights` (lines 221-228): polymorphic in the element
type because the source is duck-typed (it receives Phase-1 dicts from
`ultrathink_collaborative` and Phase-2 dicts from the synthesizer path);
the returned record never mentions the input. -/
def integrate_other_insights {α : Type} (_insights : List α) : IntegrationInsights :=
  { synthesized_insights := [], conflicts_identified := [], emergent_patterns := [],
    collaborative_conclusions := [] }

/-- `SequentialThinkAgent.ultrathink_collaborative` (lines 172-184). -/
def ultrathink_collaborative (a : SpecialistAgent) (ws : SwarmWorkspace)
    (now problem : String) (other_agents_insights : List ThinkingProcess) :
    CollaborativeInsights × SpecialistAgent × SwarmWorkspace :=
  let ci : CollaborativeInsights :=
    { first_principles_analysis := apply_first_principles problem,
      multiple_perspectives := gather_perspectives problem,
      assumption_challenging := challenge_assumptions problem,
      solution_space_exploration := explore_solution_space problem,
      integration_insights := integrate_other_insights other_agents_insights }
  let (a1, ws1) := log_thinking a ws now "ultrathink_collaborative" (.ultra ci)
  (ci, a1, ws1)

/-- The per-agent record in the dict returned by `initialize_swarm`
(lines 265-269). -/
structure InitializedAgent where
  specialty : String
  description : String
  status : String
deriving DecidableEq

/-- Return value of `initialize_swarm` (lines 281-286). -/
structure InitResult where
  status : String
  agents : List (String × InitializedAgent)
  workspace : String
  coordination_method : String
deriving DecidableEq

/-- `SwarmOrchestrator` in-memory state (lines 240-245). `uuidIdx` is the
model artifact counting how many `uuid.uuid4().hex[:8]` draws have been
consumed from the explicit supply. -/
structure Orchestrator where
  workspace : SwarmWorkspace := {}
  agents : List (String × SpecialistAgent) := []
  max_agents : Nat := 5
  active_tasks : List (String × Task) := []
  uuidIdx : Nat := 0
deriving DecidableEq

/-- The static role catalog of `initialize_swarm` (lines 250-256), in dict
insertion order. -/
def agent_specialties : List (String × String) :=
  [("coordinator", "Orchestrates swarm activities and task distribution"),
    ("analyst", "Performs deep first-principles analysis"),
    ("validator", "Sequentially validates each thinking step"),
    ("explorer", "Explores alternative perspectives and solutions"),
    ("synthesizer", "Integrates multi-agent insights and results")]

/-- The loop body of `initialize_swarm` (lines 260-279) over the role
catalog: build the uuid-suffixed agent id, store the agent instance, record
the initialized-agent entry, and broadcast the agent_initialized message. -/
def initSwarmGo (sup : Nat → String) (t : Nat) :
    List (String × String) → Orchestrator → List (String × InitializedAgent) →
      Orchestrator × List (String × InitializedAgent)
  | [], o, inits => (o, inits)
  | (spec, desc) :: rest, o, inits =>
    let agent_id := spec ++ "_agent_" ++ sup o.uuidIdx
    let msg : AgentMessage :=
      { agent_id := agent_id, message_type := "agent_initialized", target := "swarm",
        timestamp := isoNow t, payload := .agentInit spec desc }
    let o1 : Orchestrator :=
      { o with
          agents := dset o.agents agent_id
            { agent_id := agent_id, agent_type := spec, specialty := spec },
          workspace := write_message o.workspace msg t,
          uuidIdx := o.uuidIdx + 1 }
    initSwarmGo sup t rest o1
      (dset inits agent_id { specialty := spec, description := desc, status := "ready" })

/-- `SwarmOrchestrator.initialize_swarm` (lines 247-286). -/
def initialize_swarm (sup : Nat → String) (t : Nat) (o : Orchestrator) :
    Orchestrator × InitResult :=
  let (o1, inits) := initSwarmGo sup t agent_specialties o []
  (o1,
    { status := "swarm_initialized", agents := inits,
      workspace := o1.workspace.base_dir,
      coordination_method := "file_based_communication_hub" })

/-- The agent ids that one `initialize_swarm` call starting at uuid draw
`idx` generates, one per catalog entry in order. -/
def newAgentIds (sup : Nat → String) : Nat → List (String × String) → List String
  | _, [] => []
  | idx, (spec, _) :: rest => (spec ++ "_agent_" ++ sup idx) :: newAgentIds sup (idx + 1) rest

/-- `SwarmOrchestrator.create_thinking_task` (lines 288-334). -/
def create_thinking_task (sup : Nat → String) (t : Nat) (o : Orchestrator)
    (problem_description : String) (require_ultrathink : Bool) :
    Except String (Orchestrator × String) :=
  let task_id := "thinking_task_" ++ sup o.uuidIdx
  let sequential_steps :=
    ["phase_1_system_mapping", "phase_2_evidence_verification",
      "phase_3_minimal_intervention"]
    ++ (if require_ultrathink then
          ["collaborative_perspective_gathering", "assumption_challenging",
            "solution_space_exploration", "insight_synthesis"]
        else [])
  let task : Task :=
    { task_id := task_id, description := problem_description,
      created_at := isoNow t, sequential_steps := sequential_steps,
      validation_required := true }
  match write_task o.workspace task with
  | .error e => .error e
  | .ok ws1 =>
    let msg : AgentMessage :=
      { agent_id := "orchestrator", message_type := "task_created",
        target := "all_agents", timestamp := isoNow t,
        payload := .taskCreated task_id problem_description sequential_steps
          require_ultrathink,
        correlation_id := some task_id }
    .ok ({ o with
            workspace := write_message ws1 msg t,
            active_tasks := dset o.active_tasks task_id task,
            uuidIdx := o.uuidIdx + 1 }, task_id)

/-- Phase 1 of `execute_sequential_swarm_thinking` (lines 347-350): every
non-coordinator agent runs `sequential_think`; results are collected into a
dict keyed by agent id in iteration order. Returns the updated agent map,
the updated workspace, and the collected results. -/
def phase1 (now problem : String) :
    List (String × SpecialistAgent) → SwarmWorkspace →
      List (String × SpecialistAgent) × SwarmWorkspace × List (String × ThinkingProcess)
  | [], ws => ([], ws, [])
  | (aid, a) :: rest, ws =>
    if a.specialty ≠ "coordinator" then
      let (tp, a1, ws1) := sequential_think a ws now problem
      let (rest1, ws2, results) := phase1 now problem rest ws1
      ((aid, a1) :: rest1, ws2, (aid, tp) :: results)
    else
      let (rest1, ws2, results) := phase1 now problem rest ws
      ((aid, a) :: rest1, ws2, results)

/-- The peer-input comprehension of line 356:
`[result for aid, result in individual_results.items() if aid != agent_id]`. -/
def otherInsights : List (String × ThinkingProcess) → String → List ThinkingProcess
  | [], _ => []
  | (k, v) :: rest, aid =>
    if k ≠ aid then v :: otherInsights rest aid else otherInsights rest aid

/-- Phase 2 of `execute_sequential_swarm_thinking` (lines 352-357): every
non-coordinator agent runs `ultrathink_collaborative` on the Phase-1 results
of all agents other than itself. -/
def phase2 (now problem : String) (individual : List (String × ThinkingProcess)) :
    List (String × SpecialistAgent) → SwarmWorkspace →
      List (String × SpecialistAgent) × SwarmWorkspace ×
        List (String × CollaborativeInsights)
  | [], ws => ([], ws, [])
  | (aid, a) :: rest, ws =>
    if a.specialty ≠ "coordinator" then
      let (ci, a1, ws1) :=
        ultrathink_collaborative a ws now problem (otherInsights individual aid)
      let (rest1, ws2, results) := phase2 now problem individual rest ws1
      ((aid, a1) :: rest1, ws2, (aid, ci) :: results)
    else
      let (rest1, ws2, results) := phase2 now problem individual rest ws
      ((aid, a) :: rest1, ws2, results)

/-- `_achieve_consensus` (lines 378-386): a fixed placeholder record. -/
def achieve_consensus (_individual : List (String × ThinkingProcess))
    (_collaborative : List (String × CollaborativeInsights)) : Consensus :=
  { consensus_level := "high", agreed_points := [], disagreements := [],
    resolution_method := "collaborative_reasoning",
    final_confidence := (85 : ℚ) / 100 }

/-- `SwarmOrchestrator.execute_sequential_swarm_thinking` (lines 336-376).
The Phase-3 synthesizer lookup is the literal dict access
`self.agents.get("synthesizer_agent")` of line 360. Errors that Python
would raise (KeyError on the task lookup, ValueError from write_task) are
propagated as `Except.error`. -/
def execute_sequential_swarm_thinking (sup : Nat → String) (t : Nat)
    (o : Orchestrator) (problem : String) :
    Except String (Orchestrator × TaskResult) :=
  let o := if o.agents.isEmpty then (initialize_swarm sup t o).1 else o
  match create_thinking_task sup t o problem true with
  | .error e => .error e
  | .ok (o, task_id) =>
    let (agents1, ws1, individual_results) := phase1 (isoNow t) problem o.agents o.workspace
    let o := { o with agents := agents1, workspace := ws1 }
    let (agents2, ws2, ultrathink_results) :=
      phase2 (isoNow t) problem individual_results o.agents o.workspace
    let o := { o with agents := agents2, workspace := ws2 }
    let final_synthesis : FinalSynthesis :=
      match dlookup o.agents "synthesizer_agent" with
      | some _ => .synthesis (integrate_other_insights (ultrathink_results.map (·.2)))
      | none => .errorMarker "Synthesizer agent not available"
    match dlookup o.active_tasks task_id with
    | none => .error ("KeyError: " ++ task_id)
    | some task =>
      let result : TaskResult :=
        { individual_sequential_thinking := individual_results,
          collaborative_ultrathink := ultrathink_results,
          final_synthesis := final_synthesis,
          swarm_consensus := achieve_consensus individual_results ultrathink_results }
      let task := { task with result := some result }
      match move_task o.workspace task "completed" (isoNow t) with
      | (ws3, .ok task1) =>
        .ok ({ o with
                workspace := ws3,
                active_tasks := dset o.active_tasks task_id task1 }, result)
      | (_, .error e) => .error e

/-- A concrete deterministic stand-in for the `uuid.uuid4().hex[:8]` supply:
the i-th draw is the decimal string of i (all draws distinct). -/
def sampleSup (i : Nat) : String := toString i

/-- A freshly constructed `SwarmOrchestrator()` with an empty workspace. -/
def freshOrch : Orchestrator := {}

/-- The orchestrator right after one `initialize_swarm` call on the fresh
state: the 5-role swarm with ids coordinator_agent_0 ... synthesizer_agent_4. -/
def orchInit : Orchestrator := (initialize_swarm sampleSup 0 freshOrch).1

/-- Counterexample for C2: calling initializeSwarm a second time does not
replace the agent set; the fresh uuid-suffixed ids are new dict keys, so
after two calls the orchestrator holds 10 agent instances, not 5, and the
old coordinator instance is still in the map. -/
theorem initialize_swarm_twice_cex :
    (initialize_swarm sampleSup 1 orchInit).1.agents.length = 10
    ∧ (initialize_swarm sampleSup 1 orchInit).1.agents.length ≠ 5
    ∧ (dlookup (initialize_swarm sampleSup 1 orchInit).1.agents
        "coordinator_agent_0").isSome = true := by
  refine ⟨by decide, by decide, by decide⟩

/-- Accumulation lemma for the `initialize_swarm` loop: when the generated
agent ids are fresh and pairwise distinct, the loop adds one entry per
catalog role and preserves every existing entry. -/
theorem initSwarmGo_agents (sup : Nat → String) (t : Nat) :
    ∀ (roles : List (String × String)) (o : Orchestrator)
      (inits : List (String × InitializedAgent)),
      (∀ id ∈ newAgentIds sup o.uuidIdx roles, dlookup o.agents id = none) →
      (newAgentIds sup o.uuidIdx roles).Nodup →
      (initSwarmGo sup t roles o inits).1.agents.length
          = o.agents.length + roles.length
        ∧ ∀ k, (dlookup o.agents k).isSome →
            (dlookup (initSwarmGo sup t roles o inits).1.agents k).isSome := by
  intro roles
  induction roles with
  | nil => intro o inits _ _; exact ⟨by simp [initSwarmGo], fun k hk => by simpa [initSwarmGo] using hk⟩
  | cons hd rest ih =>
    obtain ⟨spec, desc⟩ := hd
    intro o inits hfresh hnodup
    simp only [newAgentIds, List.mem_cons, List.nodup_cons] at hfresh hnodup
    have hfresh0 : dlookup o.agents (spec ++ "_agent_" ++ sup o.uuidIdx) = none :=
      hfresh _ (Or.inl rfl)
    have hrest := ih
      { o with
          agents := dset o.agents (spec ++ "_agent_" ++ sup o.uuidIdx)
            { agent_id := spec ++ "_agent_" ++ sup o.uuidIdx, agent_type := spec,
              specialty := spec },
          workspace := write_message o.workspace
            { agent_id := spec ++ "_agent_" ++ sup o.uuidIdx,
              message_type := "agent_initialized", target := "swarm",
              timestamp := isoNow t, payload := .agentInit spec desc } t,
          uuidIdx := o.uuidIdx + 1 }
      (dset inits (spec ++ "_agent_" ++ sup o.uuidIdx)
        { specialty := spec, description := desc, status := "ready" })
      (by
        intro id hid
        have hne : id ≠ spec ++ "_agent_" ++ sup o.uuidIdx := by
          intro hh
          exact hnodup.1 (hh ▸ hid)
        rw [dlookup_dset_ne _ _ _ _ hne]
        exact hfresh _ (Or.inr hid))
      hnodup.2
    constructor
    · rw [initSwarmGo]
      rw [hrest.1]
      simp only [dset_length_of_fresh o.agents _ _ hfresh0, List.length_cons]
      omega
    · intro k hk
      rw [initSwarmGo]
      apply hrest.2
      have hne : k ≠ spec ++ "_agent_" ++ sup o.uuidIdx := by
        intro hh
        rw [hh, hfresh0] at hk
        exact Bool.noConfusion hk
      simpa [dlookup_dset_ne _ _ _ _ hne] using hk

/-- Claim C2 as amended: a second initializeSwarm call whose five fresh
uuid-suffixed agent ids are new keys adds five more instances to the
in-memory agent map instead of replacing it: the map grows by 5 (to 10 for
a 5-role registry after two calls) and every old instance is retained. -/
theorem initialize_swarm_accumulates (sup : Nat → String) (t : Nat) (o : Orchestrator)
    (hfresh : ∀ id ∈ newAgentIds sup o.uuidIdx agent_specialties,
      dlookup o.agents id = none)
    (hnodup : (newAgentIds sup o.uuidIdx agent_specialties).Nodup) :
    (initialize_swarm sup t o).1.agents.length = o.agents.length + 5
    ∧ ∀ k, (dlookup o.agents k).isSome →
        (dlookup (initialize_swarm sup t o).1.agents k).isSome := by
  have h := initSwarmGo_agents sup t agent_specialties o [] hfresh hnodup
  simpa [initialize_swarm, agent_specialties] using h

/-- Witness for C2 (amended): the second call on the initialized 5-role
swarm grows the agent map from 5 to 10 entries. -/
theorem initialize_swarm_accumulates_witness :
    (initialize_swarm sampleSup 1 orchInit).1.agents.length
      = orchInit.agents.length + 5 :=
  (initialize_swarm_accumulates sampleSup 1 orchInit (by decide) (by decide)).1

/-- The end-to-end run for claim C1: problem "P1", requireUltrathink true
(execute always sets it), on the freshly initialized 5-role swarm. -/
def execC1 : Except String (Orchestrator × TaskResult) :=
  execute_sequential_swarm_thinking sampleSup 1 orchInit "P1"

/-- The result bundle of the C1 run. -/
def resC1 : Option TaskResult :=
  match execC1 with
  | .ok (_, r) => some r
  | .error _ => none

/-- The completed task record of the C1 run, read back from the completed
subdivision of the final workspace. -/
def taskC1 : Option Task :=
  match execC1 with
  | .ok (o, _) => dlookup o.workspace.tasksCompleted "thinking_task_5"
  | .error _ => none

/-- Claim C1, evaluated at the failing input: the run completes the task
with a non-null completion timestamp and both phase maps are keyed by
exactly the 4 non-coordinator agent ids, and a synthesizer instance exists
in the swarm — yet final_synthesis is the error marker, because the lookup
`self.agents.get("synthesizer_agent")` can never match the uuid-suffixed id
`synthesizer_agent_4`. This contradicts the claimed (and intended) real
synthesis. -/
theorem execute_fresh_swarm_synthesizer_marker :
    resC1.map (fun r => r.final_synthesis)
      = some (.errorMarker "Synthesizer agent not available")
    ∧ (dlookup orchInit.agents "synthesizer_agent_4").map (fun a => a.specialty)
        = some "synthesizer"
    ∧ resC1.map (fun r => r.individual_sequential_thinking.map (fun p => p.1))
        = some ["analyst_agent_1", "validator_agent_2", "explorer_agent_3",
            "synthesizer_agent_4"]
    ∧ resC1.map (fun r => r.collaborative_ultrathink.map (fun p => p.1))
        = some ["analyst_agent_1", "validator_agent_2", "explorer_agent_3",
            "synthesizer_agent_4"]
    ∧ taskC1.map (fun tk => tk.status) = some "completed"
    ∧ taskC1.map (fun tk => tk.completed_at) = some (some (isoNow 1)) := by
  refine ⟨rfl, rfl, rfl, rfl, rfl, rfl⟩

/-- The Phase-1 result dict of the `execute_sequential_swarm_thinking` loop,
written out directly: one entry per non-coordinator agent in map order,
each carrying the `sequential_think` record for the problem. -/
def individualResultsOf : List (String × SpecialistAgent) → String →
    List (String × ThinkingProcess)
  | [], _ => []
  | (aid, a) :: rest, problem =>
    if a.specialty ≠ "coordinator" then
      (aid, mkThinkingProcess problem) :: individualResultsOf rest problem
    else individualResultsOf rest problem

/-- The non-coordinator agents other than `A`, in map order. -/
def nonCoordinatorOthers : List (String × SpecialistAgent) → String →
    List (String × SpecialistAgent)
  | [], _ => []
  | (aid, a) :: rest, A =>
    if a.specialty ≠ "coordinator" ∧ aid ≠ A then
      (aid, a) :: nonCoordinatorOthers rest A
    else nonCoordinatorOthers rest A

/-- The non-coordinator agents, in map order. -/
def nonCoordinator : List (String × SpecialistAgent) →
    List (String × SpecialistAgent)
  | [] => []
  | (aid, a) :: rest =>
    if a.specialty ≠ "coordinator" then (aid, a) :: nonCoordinator rest
    else nonCoordinator rest

/-- Phase 1 collects exactly `individualResultsOf`. -/
theorem phase1_results (now problem : String) :
    ∀ (agents : List (String × SpecialistAgent)) (ws : SwarmWorkspace),
      (phase1 now problem agents ws).2.2 = individualResultsOf agents problem := by
  intro agents
  induction agents with
  | nil => intro ws; rfl
  | cons hd rest ih =>
    obtain ⟨aid, a⟩ := hd
    intro ws
    by_cases hco : a.specialty = "coordinator"
    · simp [phase1, individualResultsOf, hco, ih]
    · simp [phase1, individualResultsOf, hco, ih, sequential_think]

/-- The peer-input comprehension drops exactly the entry keyed by the
calling agent. -/
theorem otherInsights_individualResults (problem A : String) :
    ∀ agents : List (String × SpecialistAgent),
      otherInsights (individualResultsOf agents problem) A
        = (nonCoordinatorOthers agents A).map (fun _ => mkThinkingProcess problem) := by
  intro agents
  induction agents with
  | nil => rfl
  | cons hd rest ih =>
    obtain ⟨aid, a⟩ := hd
    by_cases hco : a.specialty = "coordinator"
    · simp [individualResultsOf, nonCoordinatorOthers, hco, ih]
    · by_cases hself : aid = A
      · simp [individualResultsOf, nonCoordinatorOthers, otherInsights, hco, hself, ih]
      · simp [individualResultsOf, nonCoordinatorOthers, otherInsights, hco, hself, ih]

/-- Entries of `nonCoordinatorOthers` really are non-coordinator agents
other than `A`. -/
theorem nonCoordinatorOthers_sound (A : String) :
    ∀ agents : List (String × SpecialistAgent),
      ∀ p ∈ nonCoordinatorOthers agents A, p.1 ≠ A ∧ p.2.specialty ≠ "coordinator" := by
  intro agents
  induction agents with
  | nil => intro p hp; simp [nonCoordinatorOthers] at hp
  | cons hd rest ih =>
    obtain ⟨aid, a⟩ := hd
    intro p hp
    by_cases hcd : a.specialty ≠ "coordinator" ∧ aid ≠ A
    · rw [nonCoordinatorOthers, if_pos hcd] at hp
      rcases List.mem_cons.mp hp with h | h
      · subst h; exact ⟨hcd.2, hcd.1⟩
      · exact ih p h
    · rw [nonCoordinatorOthers, if_neg hcd] at hp
      exact ih p hp

/-- Claim C5: for a swarm with at least 2 non-coordinator agents, the
peer-results input that Phase 2 passes to agent A (the `otherInsights`
comprehension applied to the Phase-1 dict, exactly as in the `phase2` body)
is exactly the list of Phase-1 results of all non-coordinator agents other
than A; the entry keyed by A itself is never included. -/
theorem phase2_peer_input_excludes_self (agents : List (String × SpecialistAgent))
    (ws : SwarmWorkspace) (now problem A : String)
    (_hA : ∃ p ∈ agents, p.1 = A ∧ p.2.specialty ≠ "coordinator")
    (_hcount : 2 ≤ (nonCoordinator agents).length) :
    (phase1 now problem agents ws).2.2 = individualResultsOf agents problem
    ∧ otherInsights (individualResultsOf agents problem) A
        = (nonCoordinatorOthers agents A).map (fun _ => mkThinkingProcess problem)
    ∧ ∀ p ∈ nonCoordinatorOthers agents A, p.1 ≠ A ∧ p.2.specialty ≠ "coordinator" :=
  ⟨phase1_results now problem agents ws,
    otherInsights_individualResults problem A agents,
    nonCoordinatorOthers_sound A agents⟩

/-- Witness for C5 on the initialized 5-role swarm with A the analyst. -/
theorem phase2_peer_input_excludes_self_witness :
    otherInsights (individualResultsOf orchInit.agents "P1") "analyst_agent_1"
      = (nonCoordinatorOthers orchInit.agents "analyst_agent_1").map
          (fun _ => mkThinkingProcess "P1") :=
  (phase2_peer_input_excludes_self orchInit.agents emptyWorkspace "1" "P1"
    "analyst_agent_1" (by decide) (by decide)).2.1

/-- The sample agent used in concrete counterexamples. -/
def agentC4 : SpecialistAgent :=
  { agent_id := "analyst_agent_1", agent_type := "analyst", specialty := "analyst" }

/-- Counterexample for C4: two ultrathinkCollaborative calls whose
peer-results lists have different lengths produce identical integration
parts, so the integration part cannot echo back the number of peer inputs
considered. -/
theorem integration_part_not_echo_count_cex :
    (ultrathink_collaborative agentC4 emptyWorkspace "0" "p" []).1.integration_insights
      = (ultrathink_collaborative agentC4 emptyWorkspace "0" "p"
          [mkThinkingProcess "p"]).1.integration_insights
    ∧ ([] : List ThinkingProcess).length ≠ [mkThinkingProcess "p"].length := by
  exact ⟨rfl, by decide⟩

/-- Claim C4 as amended: for every call to ultrathinkCollaborative, the
integration part of the returned record is the fixed record with four empty
lists, independent of the peer-results list; the number of peer inputs is
not echoed back. -/
theorem integration_part_constant (a : SpecialistAgent) (ws : SwarmWorkspace)
    (now problem : String) (insights : List ThinkingProcess) :
    (ultrathink_collaborative a ws now problem insights).1.integration_insights
      = { synthesized_insights := [], conflicts_identified := [],
          emergent_patterns := [], collaborative_conclusions := [] } := rfl

/-- The two colliding sample messages for the C3 counterexample: same agent
id, different payloads. -/
def msgC3a : AgentMessage :=
  { agent_id := "a", message_type := "agent_initialized", target := "swarm",
    timestamp := "5", payload := .agentInit "analyst" "first" }

def msgC3b : AgentMessage :=
  { agent_id := "a", message_type := "agent_initialized", target := "swarm",
    timestamp := "5", payload := .agentInit "analyst" "second" }

/-- Counterexample for C3: two writeMessage calls in the same whole second
for the same agent derive the same record name; the second call silently
overwrites the first instead of choosing a uniquifying suffix, so only one
message remains stored and it is the second one. -/
theorem write_message_collision_cex :
    (write_message (write_message emptyWorkspace msgC3a 5) msgC3b 5).messages
      = [("a_5", msgC3b)]
    ∧ msgC3a ≠ msgC3b := by
  exact ⟨rfl, by decide⟩

/-- Claim C3 as amended: whenever two writeMessage calls derive the same
record name (same agent identifier and same whole-second write time), the
second write silently overwrites the earlier message: the message count does
not grow and the stored record under the collided name is the second
message. -/
theorem write_message_collision_overwrites (ws : SwarmWorkspace)
    (m1 m2 : AgentMessage) (t : Nat) (hid : m1.agent_id = m2.agent_id) :
    (write_message (write_message ws m1 t) m2 t).messages.length
      = (write_message ws m1 t).messages.length
    ∧ dlookup (write_message (write_message ws m1 t) m2 t).messages
        (m2.agent_id ++ "_" ++ toString t) = some m2 := by
  constructor
  · have hkey : (dlookup (write_message ws m1 t).messages
        (m2.agent_id ++ "_" ++ toString t)).isSome := by
      rw [← hid]
      simp [write_message, dlookup_dset_self]
    simpa [write_message] using
      dset_length_of_mem (write_message ws m1 t).messages
        (m2.agent_id ++ "_" ++ toString t) m2 hkey
  · simp [write_message, dlookup_dset_self]

/-- Witness for C3 (amended) at the two concrete colliding messages. -/
theorem write_message_collision_overwrites_witness :
    (write_message (write_message emptyWorkspace msgC3a 5) msgC3b 5).messages.length
      = (write_message emptyWorkspace msgC3a 5).messages.length
    ∧ dlookup (write_message (write_message emptyWorkspace msgC3a 5) msgC3b 5).messages
        ("a" ++ "_" ++ toString 5) = some msgC3b :=
  write_message_collision_overwrites emptyWorkspace msgC3a msgC3b 5 rfl

/-- `Except.isOk` as a plain boolean discriminator. -/
def exceptOk {ε α : Type} : Except ε α → Bool
  | .ok _ => true
  | .error _ => false

/-- Claim C6: moveTask sets the completion timestamp if and only if the new
status is "completed": moving to "completed" always stamps it with the
current time, and moving to "pending" or "active" leaves it unchanged. -/
theorem move_task_completed_at_iff (ws : SwarmWorkspace) (t : Task) (s now : String)
    (hs : s = "pending" ∨ s = "active" ∨ s = "completed") :
    (move_task ws t s now).2.map Task.completed_at
      = .ok (if s = "completed" then some now else t.completed_at) := by
  rcases hs with h | h | h <;> subst h <;> rfl

/-- Witness for C6 at a concrete task and both kinds of status. -/
theorem move_task_completed_at_iff_witness :
    (move_task emptyWorkspace
        { task_id := "t6", description := "d", created_at := "0" } "completed" "7").2.map
        Task.completed_at = .ok (some "7")
    ∧ (move_task emptyWorkspace
        { task_id := "t6", description := "d", created_at := "0" } "active" "7").2.map
        Task.completed_at = .ok none :=
  ⟨move_task_completed_at_iff emptyWorkspace
      { task_id := "t6", description := "d", created_at := "0" } "completed" "7"
      (Or.inr (Or.inr rfl)),
    move_task_completed_at_iff emptyWorkspace
      { task_id := "t6", description := "d", created_at := "0" } "active" "7"
      (Or.inr (Or.inl rfl))⟩

/-- Claim C7: when moveTask is called with an unrecognized new status, the
unlink of the record at the current status happens before write_task raises,
so after the error the task record exists at no status subdivision at all:
the call fails but the durable record is lost. -/
theorem move_task_unknown_status_loses_record (ws : SwarmWorkspace) (t : Task)
    (s now : String)
    (hs : ¬(s = "pending" ∨ s = "active" ∨ s = "completed"))
    (hcur : statusLookup ws t.status t.task_id = some t)
    (ha : t.status = "active" ∨ dlookup ws.tasksActive t.task_id = none)
    (hp : t.status = "pending" ∨ dlookup ws.tasksPending t.task_id = none)
    (hc : t.status = "completed" ∨ dlookup ws.tasksCompleted t.task_id = none) :
    (∃ e, (move_task ws t s now).2 = .error e)
    ∧ dlookup (move_task ws t s now).1.tasksPending t.task_id = none
    ∧ dlookup (move_task ws t s now).1.tasksActive t.task_id = none
    ∧ dlookup (move_task ws t s now).1.tasksCompleted t.task_id = none := by
  push_neg at hs
  obtain ⟨h1, h2, h3⟩ := hs
  have hmv : move_task ws t s now
      = (removeTaskFile ws t.status t.task_id, .error ("Unknown task status: " ++ s)) := by
    simp [move_task, write_task, h1, h2, h3]
  rw [hmv]
  refine ⟨⟨_, rfl⟩, ?_⟩
  by_cases hsp : t.status = "pending"
  · have ha' : dlookup ws.tasksActive t.task_id = none := by
      rcases ha with h | h
      · rw [hsp] at h; exact absurd h (by decide)
      · exact h
    have hc' : dlookup ws.tasksCompleted t.task_id = none := by
      rcases hc with h | h
      · rw [hsp] at h; exact absurd h (by decide)
      · exact h
    rw [hsp]
    simp [removeTaskFile, dlookup_derase_self, ha', hc']
  · by_cases hsa : t.status = "active"
    · have hp' : dlookup ws.tasksPending t.task_id = none := by
        rcases hp with h | h
        · rw [hsa] at h; exact absurd h (by decide)
        · exact h
      have hc' : dlookup ws.tasksCompleted t.task_id = none := by
        rcases hc with h | h
        · rw [hsa] at h; exact absurd h (by decide)
        · exact h
      rw [hsa]
      simp [removeTaskFile, dlookup_derase_self, hp', hc']
    · by_cases hsc : t.status = "completed"
      · have hp' : dlookup ws.tasksPending t.task_id = none := by
          rcases hp with h | h
          · rw [hsc] at h; exact absurd h (by decide)
          · exact h
        have ha' : dlookup ws.tasksActive t.task_id = none := by
          rcases ha with h | h
          · rw [hsc] at h; exact absurd h (by decide)
          · exact h
        rw [hsc]
        simp [removeTaskFile, dlookup_derase_self, hp', ha']
      · exfalso
        rw [statusLookup, if_neg hsp, if_neg hsa, if_neg hsc] at hcur
        exact Option.noConfusion hcur

/-- The sample task used in the C7 witness: stored under pending. -/
def taskC7 : Task := { task_id := "t7", description := "d", created_at := "0" }

/-- The sample workspace holding `taskC7` in the pending subdivision. -/
def wsC7 : SwarmWorkspace := { tasksPending := [("t7", taskC7)] }

/-- Witness for C7: moving the stored pending task to the unrecognized
status "archived" errors out and loses the record everywhere. -/
theorem move_task_unknown_status_loses_record_witness :
    dlookup (move_task wsC7 taskC7 "archived" "9").1.tasksPending "t7" = none
    ∧ dlookup (move_task wsC7 taskC7 "archived" "9").1.tasksActive "t7" = none
    ∧ dlookup (move_task wsC7 taskC7 "archived" "9").1.tasksCompleted "t7" = none :=
  (move_task_unknown_status_loses_record wsC7 taskC7 "archived" "9" (by decide)
    (by decide) (by decide) (by decide) (by decide)).2

/-- Claim C8: writeTask fails with the invalid-status error iff the status
is not one of pending, active, completed; for any recognized status it
succeeds and stores the record in that status subdivision keyed by the
task id. -/
theorem write_task_ok_iff_recognized (ws : SwarmWorkspace) (t : Task) :
    (exceptOk (write_task ws t) = true ↔
      (t.status = "pending" ∨ t.status = "active" ∨ t.status = "completed"))
    ∧ (∀ ws', write_task ws t = .ok ws' → statusLookup ws' t.status t.task_id = some t) := by
  constructor
  · by_cases hp : t.status = "pending"
    · simp [write_task, hp, exceptOk]
    · by_cases ha : t.status = "active"
      · simp [write_task, hp, ha, exceptOk]
      · by_cases hc : t.status = "completed"
        · simp [write_task, hp, ha, hc, exceptOk]
        · simp [write_task, hp, ha, hc, exceptOk]
  · intro ws' h
    by_cases hp : t.status = "pending"
    · rw [write_task, if_pos hp] at h
      cases h
      simp [statusLookup, hp, dlookup_dset_self]
    · by_cases ha : t.status = "active"
      · rw [write_task, if_neg hp, if_pos ha] at h
        cases h
        simp [statusLookup, hp, ha, dlookup_dset_self]
      · by_cases hc : t.status = "completed"
        · rw [write_task, if_neg hp, if_neg ha, if_pos hc] at h
          cases h
          simp [statusLookup, hp, ha, hc, dlookup_dset_self]
        · rw [write_task, if_neg hp, if_neg ha, if_neg hc] at h
          exact Except.noConfusion h

/-- The workspace obtained by writing `taskC7` (a pending task) into the
empty workspace, for the C8 witness. -/
def wsC8 : SwarmWorkspace :=
  match write_task emptyWorkspace taskC7 with
  | .ok w => w
  | .error _ => emptyWorkspace

/-- Witness for C8: the concrete pending write succeeds and the record is
found under the pending subdivision; a bogus status is rejected. -/
theorem write_task_ok_iff_recognized_witness :
    statusLookup wsC8 "pending" "t7" = some taskC7
    ∧ exceptOk (write_task emptyWorkspace { taskC7 with status := "archived" }) = false :=
  ⟨(write_task_ok_iff_recognized emptyWorkspace taskC7).2 wsC8 rfl,
    by
      have h := (write_task_ok_iff_recognized emptyWorkspace
        { taskC7 with status := "archived" }).1
      revert h
      decide⟩

end Swarm

namespace Launcher

open Swarm (dlookup dset derase dlookup_dset_self dlookup_dset_ne
  dlookup_derase_self dlookup_derase_ne dlookup_mem)

/-- One OS process backing an agent, as the supervisor observes it through
`Popen.poll`: `natExit` is the absolute model time at which it exits on its
own (`none` = it keeps running indefinitely), and `terminated` records that
`cleanup_swarm` has already ended it via terminate or kill. -/
structure Process where
  natExit : Option Nat := none
  terminated : Bool := false
deriving DecidableEq

/-- `process.poll() is None` at model time `τ`: the process is running iff
it was never terminated by cleanup and its natural exit time has not been
reached. -/
def isRunning (p : Process) (τ : Nat) : Bool :=
  !p.terminated && (match p.natExit with
    | none => true
    | some e => decide (τ < e))

/-- `active_processes[agent_id]` metadata (agent_launcher.py lines 212-217),
minus the process object, which lives in the OS table keyed by the same id. -/
structure ProcHandleInfo where
  agent_type : String
  started_at : String
  task : String
deriving DecidableEq

/-- `AgentLauncher` state plus the slice of the OS and workspace it reads:
`procs` is the OS process table (processes are never forgotten by the OS,
only by the handle map), `active_processes` the supervisor handle map,
`results` the workspace results records keyed by agent id (the file
`results/<agent_id>_result.json`, content opaque), and `thinking_sessions`
the session files keyed by file name. -/
structure LauncherState where
  procs : List (String × Process) := []
  active_processes : List (String × ProcHandleInfo) := []
  results : List (String × String) := []
  thinking_sessions : List (String × String) := []
deriving DecidableEq

/-- Update the value at a key in place, if present. -/
def dupdate {α : Type} : List (String × α) → String → (α → α) → List (String × α)
  | [], _, _ => []
  | (k, v) :: rest, key, f =>
    if k = key then (k, f v) :: rest else (k, v) :: dupdate rest key f

theorem dlookup_dupdate_self {α : Type} (l : List (String × α)) (k : String) (f : α → α) :
    dlookup (dupdate l k f) k = (dlookup l k).map f := by
  induction l with
  | nil => simp [dupdate, dlookup]
  | cons hd tl ih =>
    obtain ⟨k0, v0⟩ := hd
    by_cases h0 : k0 = k
    · simp [dupdate, h0, dlookup]
    · simp [dupdate, h0, dlookup, ih]

theorem dlookup_dupdate_ne {α : Type} (l : List (String × α)) (k k' : String)
    (f : α → α) (h : k' ≠ k) : dlookup (dupdate l k f) k' = dlookup l k' := by
  have h' : ¬ k = k' := fun hh => h hh.symm
  induction l with
  | nil => simp [dupdate]
  | cons hd tl ih =>
    obtain ⟨k0, v0⟩ := hd
    by_cases h0 : k0 = k
    · subst h0
      simp [dupdate, dlookup, h']
    · simp [dupdate, h0, dlookup, ih]

/-- The per-handle body of `cleanup_swarm` (lines 336-342): if the process
still polls as running, `terminate()` is sent and, when the 10-second grace
period expires (`TimeoutExpired`), `kill()`; on either path the process ends
up not running. An already exited process is left as is. -/
def cleanupProcess (p : Process) (τ : Nat) : Process :=
  if isRunning p τ then { p with terminated := true } else p

/-- One iteration of `AgentLauncher.cleanup_swarm` (lines 331-344): when a
handle exists for the id, end the process if needed and delete the handle
unconditionally; ids without a handle are skipped. -/
def cleanupOne (s : LauncherState) (id : String) (τ : Nat) : LauncherState :=
  match dlookup s.active_processes id with
  | some _ =>
    { s with
        procs := dupdate s.procs id (fun p => cleanupProcess p τ),
        active_processes := derase s.active_processes id }
  | none => s

/-- `AgentLauncher.cleanup_swarm` (lines 328-344) at model time `τ`. -/
def cleanup_swarm (s : LauncherState) (ids : List String) (τ : Nat) : LauncherState :=
  ids.foldl (fun st id => cleanupOne st id τ) s

theorem cleanupOne_no_handle (s : LauncherState) (id : String) (τ : Nat)
    (h : dlookup s.active_processes id = none) : cleanupOne s id τ = s := by
  rw [cleanupOne, h]

theorem cleanupOne_active_none (s : LauncherState) (id id' : String) (τ : Nat)
    (h : dlookup s.active_processes id' = none) :
    dlookup (cleanupOne s id τ).active_processes id' = none := by
  rw [cleanupOne]
  cases hlk : dlookup s.active_processes id with
  | none => exact h
  | some info =>
    by_cases he : id' = id
    · subst he
      simp [dlookup_derase_self]
    · simpa [dlookup_derase_ne _ _ _ he] using h

theorem cleanupOne_active_self (s : LauncherState) (id : String) (τ : Nat) :
    dlookup (cleanupOne s id τ).active_processes id = none := by
  rw [cleanupOne]
  cases hlk : dlookup s.active_processes id with
  | none => exact hlk
  | some info => simp [dlookup_derase_self]

theorem cleanup_swarm_active_none (τ : Nat) :
    ∀ (ids : List String) (s : LauncherState) (id : String),
      dlookup s.active_processes id = none →
      dlookup (cleanup_swarm s ids τ).active_processes id = none := by
  intro ids
  induction ids with
  | nil => intro s id h; exact h
  | cons hd rest ih =>
    intro s id h
    rw [cleanup_swarm, List.foldl_cons]
    exact ih _ id (cleanupOne_active_none s hd id τ h)

theorem cleanup_swarm_removes (τ : Nat) :
    ∀ (ids : List String) (s : LauncherState) (id : String), id ∈ ids →
      dlookup (cleanup_swarm s ids τ).active_processes id = none := by
  intro ids
  induction ids with
  | nil => intro s id h; simp at h
  | cons hd rest ih =>
    intro s id h
    rcases List.mem_cons.mp h with h | h
    · subst h
      rw [cleanup_swarm, List.foldl_cons]
      exact cleanup_swarm_active_none τ rest _ id (cleanupOne_active_self s id τ)
    · rw [cleanup_swarm, List.foldl_cons]
      exact ih _ id h

theorem cleanup_swarm_of_all_absent (τ : Nat) :
    ∀ (ids : List String) (s : LauncherState),
      (∀ id ∈ ids, dlookup s.active_processes id = none) →
      cleanup_swarm s ids τ = s := by
  intro ids
  induction ids with
  | nil => intro s _; rfl
  | cons hd rest ih =>
    intro s h
    rw [cleanup_swarm, List.foldl_cons, cleanupOne_no_handle s hd τ (h hd (by simp))]
    exact ih s (fun id hid => h id (List.mem_cons_of_mem _ hid))

/-- Claim C9: cleanup is idempotent (a second pass over the same ids, at any
later time, changes nothing; an id that was never launched is a no-op), and
after `cleanup([A])` the handle for A is gone and no process associated with
A is still running. The well-formedness hypothesis says every OS process
still running at `τ` is owned by a live handle, which launch/cleanup
maintain in the source. -/
theorem cleanup_swarm_idempotent_and_stops (s : LauncherState) (ids : List String)
    (A : String) (τ τ' : Nat)
    (hwf : ∀ pr ∈ s.procs, isRunning pr.2 τ = true →
      (dlookup s.active_processes pr.1).isSome = true) :
    cleanup_swarm (cleanup_swarm s ids τ) ids τ' = cleanup_swarm s ids τ
    ∧ (dlookup s.active_processes A = none → cleanup_swarm s [A] τ = s)
    ∧ dlookup (cleanup_swarm s [A] τ).active_processes A = none
    ∧ ∀ p, dlookup (cleanup_swarm s [A] τ).procs A = some p →
        isRunning p τ = false := by
  refine ⟨?_, ?_, ?_, ?_⟩
  · exact cleanup_swarm_of_all_absent τ' ids _
      (fun id hid => cleanup_swarm_removes τ ids s id hid)
  · intro h
    exact cleanup_swarm_of_all_absent τ [A] s (by simpa using h)
  · exact cleanup_swarm_removes τ [A] s A (by simp)
  · intro p hp
    have hone : cleanup_swarm s [A] τ = cleanupOne s A τ := rfl
    rw [hone] at hp
    rw [cleanupOne] at hp
    cases hlk : dlookup s.active_processes A with
    | none =>
      rw [hlk] at hp
      by_cases hrun : isRunning p τ = true
      · have := hwf (A, p) (dlookup_mem hp) hrun
        rw [hlk] at this
        exact Bool.noConfusion this
      · simpa using hrun
    | some info =>
      rw [hlk] at hp
      simp only at hp
      rw [dlookup_dupdate_self] at hp
      cases hpr : dlookup s.procs A with
      | none => rw [hpr] at hp; exact Option.noConfusion hp
      | some p0 =>
        rw [hpr] at hp
        simp only [Option.map] at hp
        cases hp
        rw [cleanupProcess]
        by_cases hrun : isRunning p0 τ = true
        · rw [if_pos hrun]
          simp [isRunning]
        · rw [if_neg hrun]
          simpa using hrun

/-- The poll `process_info["process"].poll() is None` for a tracked agent
id at model time `τ` (line 284); an id without an OS process entry is
unreachable for well-formed states and polls as exited. -/
def procRunning (s : LauncherState) (id : String) (τ : Nat) : Bool :=
  match dlookup s.procs id with
  | some p => isRunning p τ
  | none => false

/-- The result collection of lines 291-294: read
`results/<agent_id>_result.json` if it exists and the agent has not been
collected yet. -/
def collectResult (s : LauncherState) (res : List (String × String)) (id : String) :
    List (String × String) :=
  match dlookup s.results id with
  | some r => if (dlookup res id).isNone then dset res id r else res
  | none => res

/-- One pass of the `for agent_id in agent_ids` loop of `monitor_swarm`
(lines 278-294) at poll time `τ`, threading the status dict, the collected
results and the `all_complete` flag. -/
def pollPass (s : LauncherState) (τ : Nat) :
    List String → List (String × String) → List (String × String) → Bool →
      List (String × String) × List (String × String) × Bool
  | [], st, res, allc => (st, res, allc)
  | id :: rest, st, res, allc =>
    match dlookup s.active_processes id with
    | none => pollPass s τ rest st res allc
    | some _ =>
      if procRunning s id τ then pollPass s τ rest (dset st id "running") res false
      else pollPass s τ rest (dset st id "completed") (collectResult s res id) allc

/-- The `while time.time() - start_time < timeout` loop of `monitor_swarm`
(lines 275-299): poll while the elapsed time `τ` is below the timeout,
breaking early when every tracked agent has exited, sleeping 5 seconds
between passes. The loop runs at most one iteration per 5 seconds of
timeout, so the structural `fuel` argument, instantiated with `timeout`
itself, is never exhausted; the fuel-0 branch returns the same shape as the
timeout exit. -/
def monitorGo (s : LauncherState) (ids : List String) (timeout : Nat) :
    Nat → Nat → List (String × String) → List (String × String) →
      List (String × String) × List (String × String) × Nat
  | 0, τ, st, res => (st, res, τ)
  | fuel + 1, τ, st, res =>
    if τ < timeout then
      let pr := pollPass s τ ids st res true
      if pr.2.2 then (pr.1, pr.2.1, τ)
      else monitorGo s ids timeout fuel (τ + 5) pr.1 pr.2.1
    else (st, res, τ)

/-- `_collect_thinking_sessions` (lines 308-326): for each requested agent
id, every session file whose name matches the glob `<agent_id>_*`. -/
def collect_thinking_sessions (s : LauncherState) (ids : List String) :
    List (String × List String) :=
  ids.map (fun id =>
    (id, (s.thinking_sessions.filter (fun pr => pr.1.startsWith (id ++ "_"))).map
      (fun pr => pr.2)))

/-- Return value of `monitor_swarm` (lines 301-306). -/
structure MonitorResult where
  agent_status : List (String × String)
  results : List (String × String)
  thinking_sessions : List (String × List String)
  completion_time : Nat
deriving DecidableEq

/-- `AgentLauncher.monitor_swarm` (lines 268-306). -/
def monitor_swarm (s : LauncherState) (ids : List String) (timeout : Nat) :
    MonitorResult :=
  let r := monitorGo s ids timeout timeout 0 [] []
  { agent_status := r.1, results := r.2.1,
    thinking_sessions := collect_thinking_sessions s ids,
    completion_time := r.2.2 }

theorem isRunning_mono (p : Process) (τ τ' : Nat) (h : τ ≤ τ')
    (hf : isRunning p τ = false) : isRunning p τ' = false := by
  rw [isRunning] at hf ⊢
  cases ht : p.terminated with
  | true => simp
  | false =>
    rw [ht] at hf
    cases he : p.natExit with
    | none => rw [he] at hf; simp at hf
    | some e =>
      rw [he] at hf
      simp at hf ⊢
      omega

theorem procRunning_mono (s : LauncherState) (id : String) (τ τ' : Nat) (h : τ ≤ τ')
    (hf : procRunning s id τ = false) : procRunning s id τ' = false := by
  rw [procRunning] at hf ⊢
  cases hp : dlookup s.procs id with
  | none => rfl
  | some p =>
    rw [hp] at hf
    exact isRunning_mono p τ τ' h hf

theorem pollPass_run_pres (s : LauncherState) (τ : Nat) (A : String)
    (hArun : procRunning s A τ = true) :
    ∀ (ids : List String) (st res : List (String × String)) (allc : Bool),
      dlookup st A = some "running" →
      dlookup (pollPass s τ ids st res allc).1 A = some "running" := by
  intro ids
  induction ids with
  | nil => intro st res allc h; exact h
  | cons id rest ih =>
    intro st res allc h
    rw [pollPass]
    cases htr : dlookup s.active_processes id with
    | none => exact ih st res allc h
    | some info =>
      simp only
      by_cases hrun : procRunning s id τ = true
      · rw [if_pos hrun]
        by_cases hid : id = A
        · subst hid
          exact ih _ res false (dlookup_dset_self st id "running")
        · refine ih _ res false ?_
          rw [dlookup_dset_ne st id A "running" (fun hh => hid hh.symm)]
          exact h
      · rw [if_neg hrun]
        by_cases hid : id = A
        · subst hid
          rw [hArun] at hrun
          exact absurd rfl hrun
        · refine ih _ _ allc ?_
          rw [dlookup_dset_ne st id A "completed" (fun hh => hid hh.symm)]
          exact h

theorem pollPass_allc_false (s : LauncherState) (τ : Nat) :
    ∀ (ids : List String) (st res : List (String × String)),
      (pollPass s τ ids st res false).2.2 = false := by
  intro ids
  induction ids with
  | nil => intro st res; rfl
  | cons id rest ih =>
    intro st res
    rw [pollPass]
    cases htr : dlookup s.active_processes id with
    | none => exact ih st res
    | some info =>
      simp only
      by_cases hrun : procRunning s id τ = true
      · rw [if_pos hrun]; exact ih _ _
      · rw [if_neg hrun]; exact ih _ _

theorem pollPass_establishes_run (s : LauncherState) (τ : Nat) (A : String)
    (infoA : ProcHandleInfo) (htrack : dlookup s.active_processes A = some infoA)
    (hArun : procRunning s A τ = true) :
    ∀ (ids : List String), A ∈ ids →
      ∀ (st res : List (String × String)) (allc : Bool),
        dlookup (pollPass s τ ids st res allc).1 A = some "running"
        ∧ (pollPass s τ ids st res allc).2.2 = false := by
  intro ids
  induction ids with
  | nil => intro h; simp at h
  | cons id rest ih =>
    intro hmem st res allc
    rw [pollPass]
    by_cases hid : id = A
    · subst hid
      rw [htrack]
      simp only
      rw [if_pos hArun]
      exact ⟨pollPass_run_pres s τ id hArun rest _ res false
          (dlookup_dset_self st id "running"),
        pollPass_allc_false s τ rest _ res⟩
    · have hmem' : A ∈ rest := by
        rcases List.mem_cons.mp hmem with h | h
        · exact absurd h.symm hid
        · exact h
      cases htr : dlookup s.active_processes id with
      | none => exact ih hmem' st res allc
      | some info =>
        simp only
        by_cases hrun : procRunning s id τ = true
        · rw [if_pos hrun]; exact ih hmem' _ _ false
        · rw [if_neg hrun]; exact ih hmem' _ _ allc

theorem collectResult_ne (s : LauncherState) (res : List (String × String))
    (id B : String) (h : id ≠ B) :
    dlookup (collectResult s res id) B = dlookup res B := by
  rw [collectResult]
  cases hr : dlookup s.results id with
  | none => rfl
  | some r =>
    simp only
    by_cases hn : (dlookup res id).isNone
    · rw [if_pos hn]
      exact dlookup_dset_ne res id B r (fun hh => h hh.symm)
    · rw [if_neg hn]

theorem pollPass_completed_pres (s : LauncherState) (τ : Nat) (B rB : String)
    (hBstop : procRunning s B τ = false) :
    ∀ (ids : List String) (st res : List (String × String)) (allc : Bool),
      dlookup st B = some "completed" → dlookup res B = some rB →
      dlookup (pollPass s τ ids st res allc).1 B = some "completed"
      ∧ dlookup (pollPass s τ ids st res allc).2.1 B = some rB := by
  intro ids
  induction ids with
  | nil => intro st res allc h1 h2; exact ⟨h1, h2⟩
  | cons id rest ih =>
    intro st res allc h1 h2
    rw [pollPass]
    cases htr : dlookup s.active_processes id with
    | none => exact ih st res allc h1 h2
    | some info =>
      simp only
      by_cases hrun : procRunning s id τ = true
      · rw [if_pos hrun]
        by_cases hid : id = B
        · subst hid
          rw [hBstop] at hrun
          exact Bool.noConfusion hrun
        · refine ih _ res false ?_ h2
          rw [dlookup_dset_ne st id B "running" (fun hh => hid hh.symm)]
          exact h1
      · rw [if_neg hrun]
        by_cases hid : id = B
        · subst hid
          refine ih _ _ allc (dlookup_dset_self st id "completed") ?_
          rw [collectResult]
          cases hr : dlookup s.results id with
          | none => exact h2
          | some r =>
            simp only
            by_cases hn : (dlookup res id).isNone
            · rw [h2] at hn; simp at hn
            · rw [if_neg hn]; exact h2
        · refine ih _ _ allc ?_ ?_
          · rw [dlookup_dset_ne st id B "completed" (fun hh => hid hh.symm)]
            exact h1
          · rw [collectResult_ne s res id B hid]
            exact h2

theorem pollPass_establishes_completed (s : LauncherState) (τ : Nat) (B rB : String)
    (infoB : ProcHandleInfo) (htrack : dlookup s.active_processes B = some infoB)
    (hBstop : procRunning s B τ = false) (hBres : dlookup s.results B = some rB) :
    ∀ (ids : List String), B ∈ ids →
      ∀ (st res : List (String × String)) (allc : Bool),
        (dlookup res B = none ∨ dlookup res B = some rB) →
        dlookup (pollPass s τ ids st res allc).1 B = some "completed"
        ∧ dlookup (pollPass s τ ids st res allc).2.1 B = some rB := by
  intro ids
  induction ids with
  | nil => intro h; simp at h
  | cons id rest ih =>
    intro hmem st res allc hres
    rw [pollPass]
    by_cases hid : id = B
    · subst hid
      rw [htrack]
      simp only
      rw [if_neg (by rw [hBstop]; exact Bool.noConfusion)]
      have hcoll : dlookup (collectResult s res id) id = some rB := by
        rw [collectResult, hBres]
        simp only
        rcases hres with h | h
        · rw [if_pos (by rw [h]; rfl)]
          exact dlookup_dset_self res id rB
        · rw [if_neg (by rw [h]; simp)]
          exact h
      exact pollPass_completed_pres s τ id rB hBstop rest _ _ allc
        (dlookup_dset_self st id "completed") hcoll
    · have hmem' : B ∈ rest := by
        rcases List.mem_cons.mp hmem with h | h
        · exact absurd h.symm hid
        · exact h
      cases htr : dlookup s.active_processes id with
      | none => exact ih hmem' st res allc hres
      | some info =>
        simp only
        by_cases hrun : procRunning s id τ = true
        · rw [if_pos hrun]
          exact ih hmem' _ res false hres
        · rw [if_neg hrun]
          refine ih hmem' _ _ allc ?_
          rw [collectResult_ne s res id B hid]
          exact hres

theorem monitorGo_else (s : LauncherState) (ids : List String)
    (timeout fuel τ : Nat) (st res : List (String × String)) (h : ¬ τ < timeout) :
    monitorGo s ids timeout fuel τ st res = (st, res, τ) := by
  cases fuel with
  | zero => rfl
  | succ n => rw [monitorGo, if_neg h]

theorem monitorGo_run (s : LauncherState) (ids : List String) (timeout : Nat)
    (A : String) (infoA : ProcHandleInfo)
    (htrack : dlookup s.active_processes A = some infoA) (hmem : A ∈ ids)
    (hrun : ∀ τ, τ < timeout → procRunning s A τ = true) :
    ∀ (fuel τ : Nat) (st res : List (String × String)),
      timeout ≤ τ + 5 * fuel → τ < timeout →
      dlookup (monitorGo s ids timeout fuel τ st res).1 A = some "running"
      ∧ timeout ≤ (monitorGo s ids timeout fuel τ st res).2.2
      ∧ (monitorGo s ids timeout fuel τ st res).2.2 < timeout + 5 := by
  intro fuel
  induction fuel with
  | zero => intro τ st res hfuel hτ; omega
  | succ n ih =>
    intro τ st res hfuel hτ
    have hpoll := pollPass_establishes_run s τ A infoA htrack (hrun τ hτ) ids hmem st res true
    rw [monitorGo, if_pos hτ]
    simp only [hpoll.2, Bool.false_eq_true, if_false]
    by_cases hnext : τ + 5 < timeout
    · exact ih (τ + 5) _ _ (by omega) hnext
    · rw [monitorGo_else s ids timeout n (τ + 5) _ _ hnext]
      refine ⟨hpoll.1, ?_, ?_⟩
      · show timeout ≤ τ + 5
        omega
      · show τ + 5 < timeout + 5
        omega

theorem monitorGo_completed (s : LauncherState) (ids : List String) (timeout : Nat)
    (B rB : String) (infoB : ProcHandleInfo)
    (htrack : dlookup s.active_processes B = some infoB) (hmem : B ∈ ids)
    (hstop : ∀ τ, procRunning s B τ = false)
    (hres : dlookup s.results B = some rB) :
    ∀ (fuel τ : Nat) (st res : List (String × String)),
      timeout ≤ τ + 5 * fuel → τ < timeout →
      (dlookup res B = none ∨ dlookup res B = some rB) →
      dlookup (monitorGo s ids timeout fuel τ st res).1 B = some "completed"
      ∧ dlookup (monitorGo s ids timeout fuel τ st res).2.1 B = some rB := by
  intro fuel
  induction fuel with
  | zero => intro τ st res hfuel hτ _; omega
  | succ n ih =>
    intro τ st res hfuel hτ hinv
    have hpoll := pollPass_establishes_completed s τ B rB infoB htrack (hstop τ) hres
      ids hmem st res true hinv
    rw [monitorGo, if_pos hτ]
    by_cases hallc : (pollPass s τ ids st res true).2.2 = true
    · simp only [hallc, if_true]
      exact hpoll
    · simp only [Bool.not_eq_true] at hallc
      simp only [hallc, if_false]
      by_cases hnext : τ + 5 < timeout
      · exact ih (τ + 5) _ _ (by omega) hnext (Or.inr hpoll.2)
      · rw [monitorGo_else s ids timeout n (τ + 5) _ _ hnext]
        exact hpoll

/-- Claim C10 as amended: for every monitor call whose positive timeout is
shorter than a tracked agent A's actual run time, monitor returns (it is a
total function) with A reported as "running" and an elapsed completion time
within one 5-second poll interval of the timeout rather than A's true
completion time; and any tracked agent B that had already exited with a
result record still has its result and "completed" status included in the
returned bundle. -/
theorem monitor_swarm_timeout_reports_running (s : LauncherState)
    (ids : List String) (timeout : Nat) (A B rB : String)
    (infoA infoB : ProcHandleInfo)
    (hpos : 0 < timeout)
    (hA : dlookup s.active_processes A = some infoA) (hAmem : A ∈ ids)
    (hArun : ∀ τ, τ < timeout → procRunning s A τ = true)
    (hB : dlookup s.active_processes B = some infoB) (hBmem : B ∈ ids)
    (hBstop : procRunning s B 0 = false)
    (hBres : dlookup s.results B = some rB) :
    dlookup (monitor_swarm s ids timeout).agent_status A = some "running"
    ∧ timeout ≤ (monitor_swarm s ids timeout).completion_time
    ∧ (monitor_swarm s ids timeout).completion_time < timeout + 5
    ∧ dlookup (monitor_swarm s ids timeout).agent_status B = some "completed"
    ∧ dlookup (monitor_swarm s ids timeout).results B = some rB := by
  have hstop : ∀ τ, procRunning s B τ = false := fun τ =>
    procRunning_mono s B 0 τ (Nat.zero_le τ) hBstop
  have hr := monitorGo_run s ids timeout A infoA hA hAmem hArun timeout 0 [] []
    (by omega) hpos
  have hc := monitorGo_completed s ids timeout B rB infoB hB hBmem hstop hBres
    timeout 0 [] [] (by omega) hpos (Or.inl rfl)
  exact ⟨hr.1, hr.2.1, hr.2.2, hc.1, hc.2⟩

/-- A concrete supervisor state for the C10 counterexample and witness: the
agent a_1 runs indefinitely, the agent b_2 exited before monitoring began
and left a result record. -/
def launcherC10 : LauncherState :=
  { procs := [("a_1", { natExit := none }), ("b_2", { natExit := some 0 })],
    active_processes := [("a_1", { agent_type := "analyst", started_at := "0", task := "demo" }),
      ("b_2", { agent_type := "validator", started_at := "0", task := "demo" })],
    results := [("b_2", "b_2 result payload")] }

/-- Counterexample for C10: with timeout 0 — which is shorter than the
still-running agent's (unbounded) run time — the while loop body never
executes, so the returned status dict is empty and the tracked running
agent is not reported as "running". -/
theorem monitor_swarm_zero_timeout_cex :
    isRunning { natExit := none, terminated := false } 0 = true
    ∧ (dlookup launcherC10.active_processes "a_1").isSome = true
    ∧ (monitor_swarm launcherC10 ["a_1", "b_2"] 0).agent_status = []
    ∧ dlookup (monitor_swarm launcherC10 ["a_1", "b_2"] 0).agent_status "a_1"
        ≠ some "running" := by
  refine ⟨rfl, rfl, rfl, by decide⟩

/-- Witness for C10 (amended) at the concrete two-agent supervisor state
with timeout 7. -/
theorem monitor_swarm_timeout_reports_running_witness :
    dlookup (monitor_swarm launcherC10 ["a_1", "b_2"] 7).agent_status "a_1"
        = some "running"
    ∧ 7 ≤ (monitor_swarm launcherC10 ["a_1", "b_2"] 7).completion_time
    ∧ (monitor_swarm launcherC10 ["a_1", "b_2"] 7).completion_time < 7 + 5
    ∧ dlookup (monitor_swarm launcherC10 ["a_1", "b_2"] 7).agent_status "b_2"
        = some "completed"
    ∧ dlookup (monitor_swarm launcherC10 ["a_1", "b_2"] 7).results "b_2"
        = some "b_2 result payload" :=
  monitor_swarm_timeout_reports_running launcherC10 ["a_1", "b_2"] 7 "a_1" "b_2"
    "b_2 result payload"
    { agent_type := "analyst", started_at := "0", task := "demo" }
    { agent_type := "validator", started_at := "0", task := "demo" }
    (by decide) (by decide) (by decide) (by decide) (by decide) (by decide)
    (by decide) (by decide)

/-- A concrete supervisor state for the C9 witness: one launched agent
whose process is still running at time 0. -/
def launcherC9 : LauncherState :=
  { procs := [("analyst_1000", { natExit := none, terminated := false })],
    active_processes := [("analyst_1000",
      { agent_type := "analyst", started_at := "1000", task := "demo" })] }

/-- Witness for C9: cleaning up the launched agent twice equals cleaning it
up once, and afterwards its handle is gone. -/
theorem cleanup_swarm_idempotent_and_stops_witness :
    cleanup_swarm (cleanup_swarm launcherC9 ["analyst_1000"] 0) ["analyst_1000"] 3
        = cleanup_swarm launcherC9 ["analyst_1000"] 0
    ∧ dlookup (cleanup_swarm launcherC9 ["analyst_1000"] 0).active_processes
        "analyst_1000" = none :=
  ⟨(cleanup_swarm_idempotent_and_stops launcherC9 ["analyst_1000"] "analyst_1000" 0 3
      (by decide)).1,
    (cleanup_swarm_idempotent_and_stops launcherC9 ["analyst_1000"] "analyst_1000" 0 3
      (by decide)).2.2.1⟩

end Launcher
